import Mathlib

/-
Verification of the image-generation front end: request routing between the
text-only path and the reference-conditioned path, response normalization and
error classification, and the bounded history cache.

The definitions below are a shallow embedding of the TypeScript sources:
the `ImageGenerator` component (history state updates, prompt/style handling,
deletion) and the `geminiService` module (`generateTextToImage`,
`generateWithReferenceImage`, `generateImage`).  JavaScript string truthiness
(`undefined` and `""` are falsy) is modelled by `optNonempty`; upstream calls
are modelled by an explicit `UpstreamOutcome` value, so each service function
becomes a pure function from the upstream outcome to a normalized
`Except message dataUrl`.
-/

/-! ## Data model (`types.ts`) -/

/-- The `aspectRatio` union type of `ImageGenerationConfig`. -/
inductive AspectRatio where
  | square      -- "1:1"
  | portrait34  -- "3:4"
  | landscape43 -- "4:3"
  | tall916     -- "9:16"
  | wide169     -- "16:9"
deriving DecidableEq

/-- The optional `referenceImage` field of `ImageGenerationConfig`. -/
structure ReferenceImage where
  data : String
  mimeType : String
deriving DecidableEq

/-- `ImageGenerationConfig` from `types.ts`. -/
structure ImageGenerationConfig where
  prompt : String
  numberOfImages : Nat
  outputMimeType : String
  aspectRatio : AspectRatio
  referenceImage : Option ReferenceImage
deriving DecidableEq

/-- `HistoryItem` from `types.ts`. -/
structure HistoryItem where
  imageUrl : String
  prompt : String
  aspectRatio : AspectRatio
  imageStyle : String
  referenceImageUrl : Option String
deriving DecidableEq

/-- The component's `referenceImage` state value (url + data + mimeType). -/
structure RefImageState where
  url : String
  data : String
  mimeType : String
deriving DecidableEq

/-! ## String helpers

List-based models of the JavaScript string operations used by the sources
(`startsWith`, `includes`, `toLowerCase`), kept structurally recursive so
that concrete instances evaluate by kernel reduction. -/

/-- Character-list test: the first list starts the second. -/
def charListPre : List Char → List Char → Bool
  | [], _ => true
  | _ :: _, [] => false
  | c :: cs, d :: ds => c == d && charListPre cs ds

/-- Character-list test: the first list occurs inside the second. -/
def charListSub (pat : List Char) : List Char → Bool
  | [] => charListPre pat []
  | d :: ds => charListPre pat (d :: ds) || charListSub pat ds

/-- Model of JavaScript `s.startsWith(pat)`. -/
def strStartsWith (s pat : String) : Bool := charListPre pat.data s.data

/-- Model of JavaScript `s.includes(pat)`. -/
def strIncludes (s pat : String) : Bool := charListSub pat.data s.data

/-- Model of JavaScript `s.toLowerCase()` (character-wise lowering). -/
def strToLower (s : String) : String := String.mk (s.data.map Char.toLower)

/-- JavaScript truthiness for an optional string: both `undefined` and the
empty string are falsy. -/
def optNonempty : Option String → Option String
  | none => none
  | some s => if s = "" then none else some s

/-- JavaScript `a || b` for strings: the empty string falls through. -/
def strFallback (s fallbackVal : String) : String := if s = "" then fallbackVal else s

/-! ## History cache (`ImageGenerator` component) -/

/-- The `setHistory` update on a successful generation:
`[newHistoryItem, ...prev.filter(item => item.imageUrl !== imageUrl).slice(0, 19)]`. -/
def record (newItem : HistoryItem) (prev : List HistoryItem) : List HistoryItem :=
  newItem :: ((prev.filter fun item => item.imageUrl != newItem.imageUrl).take 19)

/-- A sequence of `record` calls applied in order to a starting list. -/
def applyRecords (ops : List HistoryItem) (start : List HistoryItem) : List HistoryItem :=
  ops.foldl (fun h item => record item h) start

/-- JavaScript `Array.prototype.filter` with its index argument, tracking the
index of the current element. -/
def filterIdxFrom (p : Nat → Bool) : Nat → List HistoryItem → List HistoryItem
  | _, [] => []
  | n, item :: rest =>
    if p n then item :: filterIdxFrom p (n + 1) rest else filterIdxFrom p (n + 1) rest

/-- `handleDeleteHistoryItem`: `prev.filter((_, index) => index !== indexToDelete)`. -/
def handleDeleteHistoryItem (indexToDelete : Nat) (prev : List HistoryItem) : List HistoryItem :=
  filterIdxFrom (fun index => index != indexToDelete) 0 prev

/-- The `history` state initializer: read the persisted string, parse it,
and fall back to `[]` when the key is absent, the string is falsy, or parsing
throws.  The JSON parser is passed explicitly as a fallible function. -/
def initHistory (parse : String → Except String (List HistoryItem))
    (savedHistory : Option String) : List HistoryItem :=
  match savedHistory with
  | none => []
  | some s =>
    if s = "" then []
    else
      match parse s with
      | Except.ok l => l
      | Except.error _ => []

/-- `finalPrompt`: append the style suffix unless the style is `"default"`. -/
def finalPrompt (currentPrompt currentImageStyle : String) : String :=
  if currentImageStyle = "default" then currentPrompt
  else currentPrompt ++ ", in a " ++ currentImageStyle ++ " style"

/-- The `config` object built by `handleGenerateImage` and passed to
`generateImage`. -/
def buildRequestConfig (currentPrompt : String) (currentAspectRatio : AspectRatio)
    (currentImageStyle : String) (currentRefImage : Option RefImageState) :
    ImageGenerationConfig :=
  { prompt := finalPrompt currentPrompt currentImageStyle
    numberOfImages := 1
    outputMimeType := "image/jpeg"
    aspectRatio := currentAspectRatio
    referenceImage := currentRefImage.map fun r => { data := r.data, mimeType := r.mimeType } }

/-- The `newHistoryItem` recorded by `handleGenerateImage` on success. -/
def newHistoryItem (imageUrl : String) (currentPrompt : String)
    (currentAspectRatio : AspectRatio) (currentImageStyle : String)
    (currentRefImage : Option RefImageState) : HistoryItem :=
  { imageUrl := imageUrl
    prompt := currentPrompt
    aspectRatio := currentAspectRatio
    imageStyle := currentImageStyle
    referenceImageUrl := currentRefImage.map RefImageState.url }

/-! ## Upstream response shapes (`@google/genai`, as used by the sources) -/

/-- One safety rating (category + probability), as read by the sources. -/
structure SafetyRating where
  category : String
  probability : String
deriving DecidableEq

/-- `promptFeedback` of an upstream response. -/
structure PromptFeedback where
  blockReason : Option String
  safetyRatings : Option (List SafetyRating)
deriving DecidableEq

/-- The `image` object of a generated image (`imageBytes` + `mimeType`). -/
structure ImageObject where
  imageBytes : Option String
  mimeType : Option String
deriving DecidableEq

/-- One entry of `response.generatedImages` (Imagen response). -/
structure GeneratedImage where
  finishReason : Option String
  safetyRatings : Option (List SafetyRating)
  image : Option ImageObject
deriving DecidableEq

/-- The `generateImages` response, as read by `generateTextToImage`. -/
structure GenerateImagesResponse where
  promptFeedback : Option PromptFeedback
  generatedImages : Option (List GeneratedImage)
deriving DecidableEq

/-- The `inlineData` of a content part. -/
structure InlineData where
  data : String
  mimeType : Option String
deriving DecidableEq

/-- One part of a candidate's content; only `inlineData` is read. -/
structure ContentPart where
  inlineData : Option InlineData
deriving DecidableEq

/-- A candidate's `content` object. -/
structure Content where
  parts : Option (List ContentPart)
deriving DecidableEq

/-- One entry of `response.candidates` (Gemini response). -/
structure Candidate where
  finishReason : Option String
  safetyRatings : Option (List SafetyRating)
  content : Option Content
deriving DecidableEq

/-- The `generateContent` response, as read by `generateWithReferenceImage`. -/
structure GenerateContentResponse where
  promptFeedback : Option PromptFeedback
  candidates : Option (List Candidate)
deriving DecidableEq

/-- Outcome of an upstream call: either a response of the given shape, or a
rejected promise carrying an error message. -/
inductive UpstreamOutcome (ρ : Type) where
  | success (response : ρ)
  | failure (message : String)

/-! ## Response normalization (`geminiService.ts`) -/

/-- `safetyRatings?.map(r => ...).join(', ')` followed by a truthiness test:
`none` when the ratings are absent or the joined string is empty. -/
def ratingsDetail (ratings : Option (List SafetyRating)) : Option String :=
  match ratings with
  | none => none
  | some rs =>
    optNonempty (some (String.intercalate ", "
      (rs.map fun r => r.category.replace "HARM_CATEGORY_" "" ++ ": " ++ r.probability)))

/-- The pre-generation block message built from `promptFeedback` (identical in
both service functions). -/
def promptBlockedMessage (reason : String) (ratings : Option (List SafetyRating)) : String :=
  match ratingsDetail ratings with
  | none => "Your prompt was blocked before generation for safety reasons (" ++ reason ++ ")."
  | some d =>
    ("Your prompt was blocked before generation for safety reasons (" ++ reason ++ ").") ++
      (" Details: " ++ d ++ ". Please modify your prompt and try again.")

/-- The safety-stop message built when a finish reason equals `"SAFETY"`
(identical in both service functions). -/
def contentBlockedMessage (ratings : Option (List SafetyRating)) : String :=
  match ratingsDetail ratings with
  | none => "The generated content was blocked for safety reasons."
  | some d =>
    "The generated content was blocked for safety reasons." ++
      (" Details: " ++ d ++ ". Please modify your prompt and try again.")

/-- Payload extraction at the end of `generateTextToImage`: read
`generatedImage.image?.imageBytes`, then build the data URL with
`image.mimeType || config.outputMimeType || 'image/jpeg'`. -/
def textImagePayload (config : ImageGenerationConfig) (generatedImage : GeneratedImage) :
    Except String String :=
  match generatedImage.image with
  | none => Except.error "The API response did not contain image data, despite reporting success."
  | some img =>
    match optNonempty img.imageBytes with
    | none => Except.error "The API response did not contain image data, despite reporting success."
    | some bytes =>
      Except.ok ("data:" ++
        (optNonempty img.mimeType).getD (strFallback config.outputMimeType "image/jpeg") ++
        ";base64," ++ bytes)

/-- The `try` block of `generateTextToImage`, applied to a received response. -/
def generateTextToImageTry (config : ImageGenerationConfig)
    (response : GenerateImagesResponse) : Except String String :=
  match optNonempty (response.promptFeedback.bind PromptFeedback.blockReason) with
  | some reason =>
    Except.error (promptBlockedMessage reason
      (response.promptFeedback.bind PromptFeedback.safetyRatings))
  | none =>
    match response.generatedImages.bind List.head? with
    | none =>
      Except.error "No image data was returned from the API. The prompt may be too complex or the model refused the request."
    | some generatedImage =>
      match optNonempty generatedImage.finishReason with
      | some reason =>
        if reason = "SUCCESS" then textImagePayload config generatedImage
        else
          Except.error (if reason = "SAFETY" then contentBlockedMessage generatedImage.safetyRatings
            else "Image generation failed. Reason: " ++ reason ++ ".")
      | none => textImagePayload config generatedImage

/-- The rethrow test of `generateTextToImage`'s catch block: messages thrown by
its own `try` block are passed through unchanged. -/
def preclassifiedText (msg : String) : Bool :=
  strStartsWith msg "Your prompt was blocked" ||
  strStartsWith msg "The generated content was blocked" ||
  strStartsWith msg "Image generation failed" ||
  strStartsWith msg "No image data was returned" ||
  strStartsWith msg "The API response did not contain image data"

/-- The transport/service error classifier, duplicated verbatim inside the
catch blocks of both service functions: substring matching on the lowercased
message, in order (credentials, quota, availability, fallback). -/
def classifyTransport (msg : String) : String :=
  let lower := strToLower msg
  if strIncludes lower "api key not valid" || strIncludes lower "403" ||
      strIncludes lower "permission_denied" || strIncludes lower "requested entity was not found" then
    "API Key is invalid or not authorized. Please ensure your key is correct and has the required permissions."
  else if strIncludes lower "429" || strIncludes lower "quota" then
    "You have exceeded your API usage quota. Please check your account status and billing."
  else if strIncludes lower "500" || strIncludes lower "503" || strIncludes lower "unavailable" then
    "The image generation service is temporarily unavailable. Please try again in a few moments."
  else
    "An unexpected error occurred. Details: " ++ msg

/-- A catch block: rethrow a pre-classified message unchanged, classify any
other error message. -/
def applyCatch (preclassified : String → Bool) (result : Except String String) :
    Except String String :=
  match result with
  | Except.ok v => Except.ok v
  | Except.error m => Except.error (if preclassified m then m else classifyTransport m)

/-- `generateTextToImage` as a function of the upstream call's outcome. -/
def generateTextToImage (config : ImageGenerationConfig)
    (outcome : UpstreamOutcome GenerateImagesResponse) : Except String String :=
  match outcome with
  | UpstreamOutcome.success response =>
    applyCatch preclassifiedText (generateTextToImageTry config response)
  | UpstreamOutcome.failure msg => applyCatch preclassifiedText (Except.error msg)

/-! ## Reference-conditioned path -/

/-- One part of the `generateContent` request built by
`generateWithReferenceImage`. -/
inductive RequestPart where
  | inlineData (data : String) (mimeType : String)
  | text (t : String)
deriving DecidableEq

/-- The `parts` array: the reference image (when present) followed by the
prompt text. -/
def buildRefParts (config : ImageGenerationConfig) : List RequestPart :=
  (match config.referenceImage with
   | some ref => [RequestPart.inlineData ref.data ref.mimeType]
   | none => []) ++ [RequestPart.text config.prompt]

/-- The full upstream request issued by `generateWithReferenceImage`. -/
structure RefUpstreamRequest where
  model : String
  parts : List RequestPart
  responseModalities : List String
deriving DecidableEq

/-- The `generateContent` call: model `gemini-2.5-flash-image`, the parts
above, and `responseModalities: [Modality.IMAGE]`. -/
def buildRefRequest (config : ImageGenerationConfig) : RefUpstreamRequest :=
  { model := "gemini-2.5-flash-image"
    parts := buildRefParts config
    responseModalities := ["IMAGE"] }

/-- First part carrying `inlineData`, as found by the `for` loop over
`candidate.content.parts`. -/
def firstInlineData : List ContentPart → Option InlineData
  | [] => none
  | p :: ps =>
    match p.inlineData with
    | some d => some d
    | none => firstInlineData ps

/-- Payload extraction at the end of `generateWithReferenceImage`: loop over
`candidate.content?.parts` for the first `inlineData`; otherwise fail. -/
def refExtract (candidate : Candidate) : Except String String :=
  match candidate.content.bind Content.parts with
  | none =>
    Except.error "No image data was returned from the API. This can happen if the prompt is too complex or the model is unable to generate an image for your request."
  | some parts =>
    match firstInlineData parts with
    | some d =>
      Except.ok ("data:" ++ (optNonempty d.mimeType).getD "image/jpeg" ++ ";base64," ++ d.data)
    | none =>
      Except.error "No image data was returned from the API. This can happen if the prompt is too complex or the model is unable to generate an image for your request."

/-- The `try` block of `generateWithReferenceImage`, applied to a received
response.  With no candidate at all, the finish reason defaults to
`'UNKNOWN_REASON'` and the stopped message is thrown. -/
def generateWithReferenceImageTry (config : ImageGenerationConfig)
    (response : GenerateContentResponse) : Except String String :=
  match optNonempty (response.promptFeedback.bind PromptFeedback.blockReason) with
  | some reason =>
    Except.error (promptBlockedMessage reason
      (response.promptFeedback.bind PromptFeedback.safetyRatings))
  | none =>
    match response.candidates.bind List.head? with
    | none => Except.error "Image generation was stopped. Reason: UNKNOWN_REASON."
    | some candidate =>
      match optNonempty candidate.finishReason with
      | some reason =>
        if reason = "STOP" then refExtract candidate
        else
          Except.error (if reason = "SAFETY" then contentBlockedMessage candidate.safetyRatings
            else "Image generation was stopped. Reason: " ++ reason ++ ".")
      | none => refExtract candidate

/-- The rethrow test of `generateWithReferenceImage`'s catch block. -/
def preclassifiedRef (msg : String) : Bool :=
  strStartsWith msg "Your prompt was blocked" ||
  strStartsWith msg "The generated content was blocked" ||
  strStartsWith msg "Image generation was stopped" ||
  strStartsWith msg "No image data was returned"

/-- `generateWithReferenceImage` as a function of the upstream call's outcome.
The request it issues is `buildRefRequest config`. -/
def generateWithReferenceImage (config : ImageGenerationConfig)
    (outcome : UpstreamOutcome GenerateContentResponse) : Except String String :=
  match outcome with
  | UpstreamOutcome.success response =>
    applyCatch preclassifiedRef (generateWithReferenceImageTry config response)
  | UpstreamOutcome.failure msg => applyCatch preclassifiedRef (Except.error msg)

/-! ## Dispatch (`generateImage`) -/

/-- The two upstream model paths. -/
inductive GenPath where
  | referenceConditioned
  | textOnly
deriving DecidableEq

/-- The branch taken by `generateImage`: `if (config.referenceImage) ... else ...`. -/
def generateImagePath (config : ImageGenerationConfig) : GenPath :=
  match config.referenceImage with
  | some _ => GenPath.referenceConditioned
  | none => GenPath.textOnly

/-- `generateImage`: dispatch on the presence of `config.referenceImage`.
The `if` branch calls `generateWithReferenceImage`.  The `else` branch body is
truncated in the provided source file; Modelled from the spec: the spec's
decision rule ("otherwise dispatch to the text-only path") and the function's
own doc comment ("routes to a text-to-image model (Imagen) if no reference
image is provided") fix it as the call to `generateTextToImage`. -/
def generateImage (config : ImageGenerationConfig)
    (textOutcome : UpstreamOutcome GenerateImagesResponse)
    (refOutcome : UpstreamOutcome GenerateContentResponse) : Except String String :=
  match config.referenceImage with
  | some _ => generateWithReferenceImage config refOutcome
  | none => generateTextToImage config textOutcome

/-! ## Concrete fixtures used by witnesses and counterexamples -/

/-- A concrete history entry. -/
def item0 : HistoryItem :=
  { imageUrl := "data:image/jpeg;base64,AAA", prompt := "a red fox",
    aspectRatio := AspectRatio.square, imageStyle := "default", referenceImageUrl := none }

/-- A second concrete entry sharing `item0`'s image URL. -/
def itemA : HistoryItem :=
  { imageUrl := "data:image/jpeg;base64,AAA", prompt := "older prompt",
    aspectRatio := AspectRatio.wide169, imageStyle := "cartoon", referenceImageUrl := none }

/-- A concrete entry with a different image URL. -/
def itemB : HistoryItem :=
  { imageUrl := "data:image/jpeg;base64,BBB", prompt := "a blue bird",
    aspectRatio := AspectRatio.square, imageStyle := "default", referenceImageUrl := none }

/-- A concrete text-only configuration. -/
def cfg0 : ImageGenerationConfig :=
  { prompt := "a red fox", numberOfImages := 1, outputMimeType := "image/jpeg",
    aspectRatio := AspectRatio.square, referenceImage := none }

/-- A concrete reference image. -/
def refImg0 : ReferenceImage := { data := "QUJD", mimeType := "image/png" }

/-- A concrete configuration carrying a reference image. -/
def cfgRef : ImageGenerationConfig :=
  { prompt := "a red fox", numberOfImages := 1, outputMimeType := "image/jpeg",
    aspectRatio := AspectRatio.square, referenceImage := some refImg0 }

/-- `cfgRef` with only the aspect ratio changed. -/
def cfgRefWide : ImageGenerationConfig :=
  { prompt := "a red fox", numberOfImages := 1, outputMimeType := "image/jpeg",
    aspectRatio := AspectRatio.wide169, referenceImage := some refImg0 }

/-- A generated image stopped for safety, with no ratings detail. -/
def giSafety : GeneratedImage :=
  { finishReason := some "SAFETY", safetyRatings := none, image := none }

/-- An Imagen response whose single generated image was stopped for safety. -/
def respSafety : GenerateImagesResponse :=
  { promptFeedback := none, generatedImages := some [giSafety] }

/-- An Imagen response with no generated image at all. -/
def respNoImages : GenerateImagesResponse :=
  { promptFeedback := none, generatedImages := none }

/-- A candidate stopped for safety, with no ratings detail. -/
def candSafety : Candidate :=
  { finishReason := some "SAFETY", safetyRatings := none, content := none }

/-- A Gemini response whose single candidate was stopped for safety. -/
def respRefSafety : GenerateContentResponse :=
  { promptFeedback := none, candidates := some [candSafety] }

/-- A Gemini response with no candidate at all. -/
def respNoCandidate : GenerateContentResponse :=
  { promptFeedback := none, candidates := none }

/-- A candidate that finished normally but carries no inline image part. -/
def candStopNoPart : Candidate :=
  { finishReason := some "STOP", safetyRatings := none,
    content := some { parts := some [{ inlineData := none }] } }

/-- A Gemini response whose candidate finished normally without an image. -/
def respRefNoPart : GenerateContentResponse :=
  { promptFeedback := none, candidates := some [candStopNoPart] }

/-- A concrete stand-in for `JSON.parse` restricted to history lists: accepts
exactly `"[]"`, rejects everything else (in particular the empty string). -/
def parse0 : String → Except String (List HistoryItem) :=
  fun s => if s = "[]" then Except.ok [] else Except.error "Unexpected token"

/-! ## String lemmas -/

theorem str_data_append (s t : String) : (s ++ t).data = s.data ++ t.data := by
  cases s; cases t; rfl

theorem charListPre_append (p a b : List Char) (h : charListPre p a = true) :
    charListPre p (a ++ b) = true := by
  induction p generalizing a with
  | nil => rfl
  | cons c cs ih =>
    cases a with
    | nil => simp [charListPre] at h
    | cons d ds =>
      rw [List.cons_append]
      simp only [charListPre, Bool.and_eq_true] at h ⊢
      exact ⟨h.1, ih ds h.2⟩

theorem charListPre_append_false (p a b : List Char) (h : charListPre p a = false)
    (hl : p.length ≤ a.length) : charListPre p (a ++ b) = false := by
  induction p generalizing a with
  | nil => simp [charListPre] at h
  | cons c cs ih =>
    cases a with
    | nil => simp at hl
    | cons d ds =>
      rw [List.cons_append]
      simp only [charListPre] at h ⊢
      cases hcd : (c == d) with
      | false => simp [hcd]
      | true =>
        rw [hcd] at h
        simp only [Bool.true_and] at h ⊢
        exact ih ds h (Nat.le_of_succ_le_succ hl)

theorem strStartsWith_append_left (a b p : String) (h : strStartsWith a p = true) :
    strStartsWith (a ++ b) p = true := by
  unfold strStartsWith at h ⊢
  rw [str_data_append]
  exact charListPre_append _ _ _ h

theorem strStartsWith_append_left_false (a b p : String) (h : strStartsWith a p = false)
    (hl : p.data.length ≤ a.data.length) : strStartsWith (a ++ b) p = false := by
  unfold strStartsWith at h ⊢
  rw [str_data_append]
  exact charListPre_append_false _ _ _ h hl

/-! ## Lemmas about the safety-stop message -/

theorem contentBlocked_starts_full (r : Option (List SafetyRating)) :
    strStartsWith (contentBlockedMessage r)
      "The generated content was blocked for safety reasons" = true := by
  unfold contentBlockedMessage
  cases hr : ratingsDetail r with
  | none => decide
  | some d => exact strStartsWith_append_left _ _ _ (by decide)

theorem contentBlocked_starts_short (r : Option (List SafetyRating)) :
    strStartsWith (contentBlockedMessage r) "The generated content was blocked" = true := by
  unfold contentBlockedMessage
  cases hr : ratingsDetail r with
  | none => decide
  | some d => exact strStartsWith_append_left _ _ _ (by decide)

theorem contentBlocked_not_promptBlocked (r : Option (List SafetyRating)) :
    strStartsWith (contentBlockedMessage r) "Your prompt was blocked" = false := by
  unfold contentBlockedMessage
  cases hr : ratingsDetail r with
  | none => decide
  | some d => exact strStartsWith_append_left_false _ _ _ (by decide) (by decide)

theorem preclassifiedText_contentBlocked (r : Option (List SafetyRating)) :
    preclassifiedText (contentBlockedMessage r) = true := by
  unfold preclassifiedText
  rw [contentBlocked_not_promptBlocked, contentBlocked_starts_short]
  rfl

theorem preclassifiedRef_contentBlocked (r : Option (List SafetyRating)) :
    preclassifiedRef (contentBlockedMessage r) = true := by
  unfold preclassifiedRef
  rw [contentBlocked_not_promptBlocked, contentBlocked_starts_short]
  rfl

/-! ## History-cache lemmas -/

theorem record_length_le (it : HistoryItem) (prev : List HistoryItem) :
    (record it prev).length ≤ 20 := by
  unfold record
  simp [List.length_take]

theorem applyRecords_length_le (ops : List HistoryItem) (h : List HistoryItem)
    (hle : h.length ≤ 20) : (applyRecords ops h).length ≤ 20 := by
  induction ops generalizing h with
  | nil => exact hle
  | cons o os ih => exact ih (record o h) (record_length_le o h)

theorem record_countP_one (it : HistoryItem) (prev : List HistoryItem) :
    List.countP (fun x => x.imageUrl == it.imageUrl) (record it prev) = 1 := by
  unfold record
  rw [List.countP_cons]
  have hz : List.countP (fun x => x.imageUrl == it.imageUrl)
      ((prev.filter fun item => item.imageUrl != it.imageUrl).take 19) = 0 := by
    rw [List.countP_eq_zero]
    intro a ha
    have hmem : a ∈ prev.filter fun item => item.imageUrl != it.imageUrl :=
      List.take_subset _ _ ha
    have hq := (List.mem_filter.mp hmem).2
    simp only [bne_iff_ne, ne_eq] at hq
    simp [hq]
  rw [hz]
  simp

/-! ## Claim theorems -/

/-- C1: `generateImage` dispatches to the reference-conditioned path
(`generateWithReferenceImage`) exactly when `config.referenceImage` is
present, and to the text-only path (`generateTextToImage`) otherwise,
regardless of all other fields. -/
theorem c1_dispatch (prompt : String) (n : Nat) (mime : String) (ar : AspectRatio)
    (ref : Option ReferenceImage)
    (textOutcome : UpstreamOutcome GenerateImagesResponse)
    (refOutcome : UpstreamOutcome GenerateContentResponse) :
    (ref.isSome = true →
      generateImagePath ⟨prompt, n, mime, ar, ref⟩ = GenPath.referenceConditioned ∧
      generateImage ⟨prompt, n, mime, ar, ref⟩ textOutcome refOutcome =
        generateWithReferenceImage ⟨prompt, n, mime, ar, ref⟩ refOutcome) ∧
    (ref = none →
      generateImagePath ⟨prompt, n, mime, ar, ref⟩ = GenPath.textOnly ∧
      generateImage ⟨prompt, n, mime, ar, ref⟩ textOutcome refOutcome =
        generateTextToImage ⟨prompt, n, mime, ar, ref⟩ textOutcome) := by
  constructor
  · intro h
    cases ref with
    | none => simp at h
    | some r => exact ⟨rfl, rfl⟩
  · intro h
    subst h
    exact ⟨rfl, rfl⟩

/-- Witness for C1 at concrete configurations. -/
theorem c1_dispatch_witness :
    (generateImagePath cfgRef = GenPath.referenceConditioned ∧
      generateImage cfgRef (UpstreamOutcome.failure "x") (UpstreamOutcome.failure "x") =
        generateWithReferenceImage cfgRef (UpstreamOutcome.failure "x")) ∧
    (generateImagePath cfg0 = GenPath.textOnly ∧
      generateImage cfg0 (UpstreamOutcome.failure "x") (UpstreamOutcome.failure "x") =
        generateTextToImage cfg0 (UpstreamOutcome.failure "x")) :=
  ⟨(c1_dispatch "a red fox" 1 "image/jpeg" AspectRatio.square (some refImg0)
      (UpstreamOutcome.failure "x") (UpstreamOutcome.failure "x")).1 rfl,
   (c1_dispatch "a red fox" 1 "image/jpeg" AspectRatio.square none
      (UpstreamOutcome.failure "x") (UpstreamOutcome.failure "x")).2 rfl⟩

/-- C2 counterexample: with an over-long starting list and an empty sequence
of record operations, the resulting list (the start itself) has 21 entries,
so the claim's bound fails; the code never truncates an already-loaded list. -/
theorem c2_counterexample :
    ¬ ((applyRecords [] (List.replicate 21 itemB)).length ≤ 20) := by decide

/-- C2 (amended): after any nonempty sequence of record operations, starting
from any history list, the resulting list has at most 20 entries. -/
theorem c2_record_cap (start : List HistoryItem) (ops : List HistoryItem)
    (hne : ops ≠ []) : (applyRecords ops start).length ≤ 20 := by
  cases ops with
  | nil => exact absurd rfl hne
  | cons o os => exact applyRecords_length_le os (record o start) (record_length_le o start)

/-- Witness for C2 at a concrete over-long start and a single record. -/
theorem c2_record_cap_witness :
    (applyRecords [item0] (List.replicate 21 itemB)).length ≤ 20 :=
  c2_record_cap (List.replicate 21 itemB) [item0] (List.cons_ne_nil item0 [])

/-- C3: recording an entry whose imageUrl already occurs in the list leaves
exactly one entry with that imageUrl, and recording the same entry twice in a
row also leaves exactly one. -/
theorem c3_record_dedup (prev : List HistoryItem) (it : HistoryItem)
    (_hmem : it.imageUrl ∈ prev.map HistoryItem.imageUrl) :
    List.countP (fun x => x.imageUrl == it.imageUrl) (record it prev) = 1 ∧
    List.countP (fun x => x.imageUrl == it.imageUrl) (record it (record it prev)) = 1 :=
  ⟨record_countP_one it prev, record_countP_one it (record it prev)⟩

/-- Witness for C3 at a concrete list already containing the url. -/
theorem c3_record_dedup_witness :
    List.countP (fun x => x.imageUrl == item0.imageUrl) (record item0 [itemA]) = 1 ∧
    List.countP (fun x => x.imageUrl == item0.imageUrl) (record item0 (record item0 [itemA])) = 1 :=
  c3_record_dedup [itemA] item0 (by decide)

/-- C7: with any JSON-like parser (one that rejects the empty string, as
`JSON.parse` does), history-cache initialization yields `[]` on every string
that fails to parse, and the parsed list on every string that parses; it is a
total function, so no error reaches the caller. -/
theorem c7_init_recovers (parse : String → Except String (List HistoryItem))
    (hjson : ∃ e, parse "" = Except.error e) (s : String) :
    (∀ e, parse s = Except.error e → initHistory parse (some s) = []) ∧
    (∀ l, parse s = Except.ok l → initHistory parse (some s) = l) := by
  constructor
  · intro e he
    unfold initHistory
    by_cases hs : s = ""
    · simp [hs]
    · simp [hs, he]
  · intro l hl
    unfold initHistory
    by_cases hs : s = ""
    · subst hs
      obtain ⟨e, he⟩ := hjson
      rw [he] at hl
      simp at hl
    · simp [hs, hl]

/-- Witness for C7 at a concrete parser, a malformed string and a well-formed
one. -/
theorem c7_init_recovers_witness :
    initHistory parse0 (some "nonsense") = [] ∧ initHistory parse0 (some "[]") = [] :=
  ⟨(c7_init_recovers parse0 ⟨"Unexpected token", rfl⟩ "nonsense").1 "Unexpected token" rfl,
   (c7_init_recovers parse0 ⟨"Unexpected token", rfl⟩ "[]").2 [] rfl⟩

theorem filterIdx_ne_eq_eraseIdx (i : Nat) (prev : List HistoryItem) (n : Nat) :
    filterIdxFrom (fun index => index != i) n prev =
      if i < n then prev else prev.eraseIdx (i - n) := by
  induction prev generalizing n with
  | nil => simp [filterIdxFrom, List.eraseIdx]
  | cons a as ih =>
    by_cases hni : n = i
    · subst hni
      have h1 : (n != n) = false := by simp
      simp only [filterIdxFrom, h1, Bool.false_eq_true, if_false]
      rw [ih (n + 1)]
      simp [Nat.lt_succ_self, Nat.lt_irrefl, Nat.sub_self, List.eraseIdx]
    · have hb : (n != i) = true := by simpa using hni
      simp only [filterIdxFrom, hb, if_true]
      rw [ih (n + 1)]
      rcases Nat.lt_trichotomy i n with hlt | heq | hgt
      · simp [hlt, Nat.lt_succ_of_lt hlt]
      · exact absurd heq.symm hni
      · have h2 : ¬ i < n + 1 := by omega
        have h3 : ¬ i < n := by omega
        simp only [h2, h3, if_false]
        have h4 : i - n = (i - (n + 1)) + 1 := by omega
        rw [h4]
        rfl

/-- C8: `handleDeleteHistoryItem i` removes exactly the entry at position `i`
(later entries shift up by one) when `i` is in range, and is a no-op when `i`
is out of range. -/
theorem c8_delete (prev : List HistoryItem) (i : Nat) :
    (i < prev.length → handleDeleteHistoryItem i prev = prev.take i ++ prev.drop (i + 1)) ∧
    (prev.length ≤ i → handleDeleteHistoryItem i prev = prev) := by
  have h0 : handleDeleteHistoryItem i prev = prev.eraseIdx i := by
    unfold handleDeleteHistoryItem
    rw [filterIdx_ne_eq_eraseIdx]
    simp
  constructor
  · intro _
    rw [h0, List.eraseIdx_eq_take_drop_succ]
  · intro hle
    rw [h0, List.eraseIdx_eq_take_drop_succ, List.take_of_length_le hle,
        List.drop_eq_nil_of_le (by omega), List.append_nil]

/-- Witness for C8: in-range deletion at index 1, out-of-range index 5. -/
theorem c8_delete_witness :
    handleDeleteHistoryItem 1 [item0, itemA, itemB] = [item0, itemB] ∧
    handleDeleteHistoryItem 5 [item0, itemA, itemB] = [item0, itemA, itemB] := by
  constructor
  · have h := (c8_delete [item0, itemA, itemB] 1).1 (by decide)
    rw [h]
    rfl
  · exact (c8_delete [item0, itemA, itemB] 5).2 (by decide)

/-- C9: two configurations with a reference image that differ only in
`aspectRatio` produce the identical upstream request, and the
reference-conditioned path maps every upstream outcome to the identical
result or error for both. -/
theorem c9_aspect_ignored (c1 c2 : ImageGenerationConfig)
    (_href : c1.referenceImage.isSome = true)
    (hp : c1.prompt = c2.prompt) (hn : c1.numberOfImages = c2.numberOfImages)
    (hm : c1.outputMimeType = c2.outputMimeType)
    (hr : c1.referenceImage = c2.referenceImage) :
    buildRefRequest c1 = buildRefRequest c2 ∧
    ∀ outcome, generateWithReferenceImage c1 outcome = generateWithReferenceImage c2 outcome := by
  obtain ⟨p1, n1, m1, a1, r1⟩ := c1
  obtain ⟨p2, n2, m2, a2, r2⟩ := c2
  simp only at hp hn hm hr
  subst hp; subst hn; subst hm; subst hr
  exact ⟨rfl, fun outcome => rfl⟩

/-- Witness for C9: same configuration under square and widescreen ratios. -/
theorem c9_aspect_ignored_witness :
    buildRefRequest cfgRef = buildRefRequest cfgRefWide ∧
    generateWithReferenceImage cfgRef (UpstreamOutcome.failure "boom") =
      generateWithReferenceImage cfgRefWide (UpstreamOutcome.failure "boom") :=
  ⟨(c9_aspect_ignored cfgRef cfgRefWide rfl rfl rfl rfl rfl).1,
   (c9_aspect_ignored cfgRef cfgRefWide rfl rfl rfl rfl rfl).2 (UpstreamOutcome.failure "boom")⟩

/-- C10: with a non-default style the config sent to routing carries the
prompt with ", in a <style> style" appended; with the default style it is
sent unmodified; the history entry always stores the unmodified prompt. -/
theorem c10_style_prompt (p : String) (ar : AspectRatio) (style : String)
    (ref : Option RefImageState) (url : String) :
    (style ≠ "default" →
      (buildRequestConfig p ar style ref).prompt = p ++ ", in a " ++ style ++ " style") ∧
    (style = "default" → (buildRequestConfig p ar style ref).prompt = p) ∧
    (newHistoryItem url p ar style ref).prompt = p := by
  refine ⟨?_, ?_, rfl⟩
  · intro h
    simp [buildRequestConfig, finalPrompt, h]
  · intro h
    simp [buildRequestConfig, finalPrompt, h]

/-- Witness for C10 at the "cartoon" and "default" styles. -/
theorem c10_style_prompt_witness :
    (buildRequestConfig "a red fox" AspectRatio.square "cartoon" none).prompt =
      "a red fox" ++ ", in a " ++ "cartoon" ++ " style" ∧
    (buildRequestConfig "a red fox" AspectRatio.square "default" none).prompt = "a red fox" ∧
    (newHistoryItem "u" "a red fox" AspectRatio.square "cartoon" none).prompt = "a red fox" :=
  ⟨(c10_style_prompt "a red fox" AspectRatio.square "cartoon" none "u").1 (by decide),
   (c10_style_prompt "a red fox" AspectRatio.square "default" none "u").2.1 rfl,
   (c10_style_prompt "a red fox" AspectRatio.square "cartoon" none "u").2.2⟩

/-- C4: a response that was not blocked before generation but whose generated
candidate carries `finishReason = "SAFETY"` fails with the content-blocked
message (not the prompt-blocked one) on both paths. -/
theorem c4_safety_routes_contentBlocked (config : ImageGenerationConfig)
    (resp : GenerateImagesResponse) (gi : GeneratedImage) (giRest : List GeneratedImage)
    (respR : GenerateContentResponse) (cand : Candidate) (candRest : List Candidate)
    (hbT : optNonempty (resp.promptFeedback.bind PromptFeedback.blockReason) = none)
    (hgT : resp.generatedImages = some (gi :: giRest))
    (hfT : gi.finishReason = some "SAFETY")
    (hbR : optNonempty (respR.promptFeedback.bind PromptFeedback.blockReason) = none)
    (hgR : respR.candidates = some (cand :: candRest))
    (hfR : cand.finishReason = some "SAFETY") :
    (∃ m, generateTextToImage config (UpstreamOutcome.success resp) = Except.error m ∧
      strStartsWith m "The generated content was blocked for safety reasons" = true ∧
      strStartsWith m "Your prompt was blocked" = false) ∧
    (∃ m, generateWithReferenceImage config (UpstreamOutcome.success respR) = Except.error m ∧
      strStartsWith m "The generated content was blocked for safety reasons" = true ∧
      strStartsWith m "Your prompt was blocked" = false) := by
  have hT : generateTextToImageTry config resp =
      Except.error (contentBlockedMessage gi.safetyRatings) := by
    unfold generateTextToImageTry
    rw [hbT, hgT]
    simp [hfT, optNonempty]
  have hR : generateWithReferenceImageTry config respR =
      Except.error (contentBlockedMessage cand.safetyRatings) := by
    unfold generateWithReferenceImageTry
    rw [hbR, hgR]
    simp [hfR, optNonempty]
  constructor
  · refine ⟨contentBlockedMessage gi.safetyRatings, ?_,
      contentBlocked_starts_full _, contentBlocked_not_promptBlocked _⟩
    show applyCatch preclassifiedText (generateTextToImageTry config resp) = _
    rw [hT]
    simp [applyCatch, preclassifiedText_contentBlocked]
  · refine ⟨contentBlockedMessage cand.safetyRatings, ?_,
      contentBlocked_starts_full _, contentBlocked_not_promptBlocked _⟩
    show applyCatch preclassifiedRef (generateWithReferenceImageTry config respR) = _
    rw [hR]
    simp [applyCatch, preclassifiedRef_contentBlocked]

/-- Witness for C4 at concrete safety-stopped responses on both paths. -/
theorem c4_safety_routes_contentBlocked_witness :
    (∃ m, generateTextToImage cfg0 (UpstreamOutcome.success respSafety) = Except.error m ∧
      strStartsWith m "The generated content was blocked for safety reasons" = true ∧
      strStartsWith m "Your prompt was blocked" = false) ∧
    (∃ m, generateWithReferenceImage cfg0 (UpstreamOutcome.success respRefSafety) = Except.error m ∧
      strStartsWith m "The generated content was blocked for safety reasons" = true ∧
      strStartsWith m "Your prompt was blocked" = false) :=
  c4_safety_routes_contentBlocked cfg0 respSafety giSafety [] respRefSafety candSafety []
    rfl rfl rfl rfl rfl rfl

/-- C5 counterexample: the transport error message "403 429" contains "429"
and carries no pre-classified message, yet both catch blocks classify it as
the invalid-credentials error, because the credentials branch is tested
first and "403" matches. -/
theorem c5_counterexample :
    strIncludes "403 429" "429" = true ∧
    preclassifiedText "403 429" = false ∧
    generateTextToImage cfg0 (UpstreamOutcome.failure "403 429") =
      Except.error "API Key is invalid or not authorized. Please ensure your key is correct and has the required permissions." ∧
    "API Key is invalid or not authorized. Please ensure your key is correct and has the required permissions." ≠
      "You have exceeded your API usage quota. Please check your account status and billing." :=
  ⟨by decide, by decide, rfl, by decide⟩

/-- C5 (amended): a transport error not carrying a pre-classified message,
whose lowercased message contains "429" and contains none of the
credentials indicators ("api key not valid", "403", "permission_denied",
"requested entity was not found"), is classified as the quota-exceeded error
on both paths. -/
theorem c5_quota_classified (config : ImageGenerationConfig) (msg : String)
    (hpreT : preclassifiedText msg = false) (hpreR : preclassifiedRef msg = false)
    (h429 : strIncludes (strToLower msg) "429" = true)
    (hkey : strIncludes (strToLower msg) "api key not valid" = false)
    (h403 : strIncludes (strToLower msg) "403" = false)
    (hperm : strIncludes (strToLower msg) "permission_denied" = false)
    (hent : strIncludes (strToLower msg) "requested entity was not found" = false) :
    generateTextToImage config (UpstreamOutcome.failure msg) =
      Except.error "You have exceeded your API usage quota. Please check your account status and billing." ∧
    generateWithReferenceImage config (UpstreamOutcome.failure msg) =
      Except.error "You have exceeded your API usage quota. Please check your account status and billing." := by
  have hcl : classifyTransport msg =
      "You have exceeded your API usage quota. Please check your account status and billing." := by
    unfold classifyTransport
    simp [hkey, h403, hperm, hent, h429]
  constructor
  · show applyCatch preclassifiedText (Except.error msg) = _
    simp [applyCatch, hpreT, hcl]
  · show applyCatch preclassifiedRef (Except.error msg) = _
    simp [applyCatch, hpreR, hcl]

/-- Witness for C5 at the concrete message "error 429". -/
theorem c5_quota_classified_witness :
    generateTextToImage cfg0 (UpstreamOutcome.failure "error 429") =
      Except.error "You have exceeded your API usage quota. Please check your account status and billing." ∧
    generateWithReferenceImage cfg0 (UpstreamOutcome.failure "error 429") =
      Except.error "You have exceeded your API usage quota. Please check your account status and billing." :=
  c5_quota_classified cfg0 "error 429" (by decide) (by decide) (by decide) (by decide)
    (by decide) (by decide) (by decide)

/-- C6 counterexample: on the reference-conditioned path, a response that is
not blocked and contains no candidate at all fails with the
generation-stopped message, which does not start with "No image data was
returned", contradicting the claim for that case. -/
theorem c6_counterexample :
    generateWithReferenceImage cfgRef (UpstreamOutcome.success respNoCandidate) =
      Except.error "Image generation was stopped. Reason: UNKNOWN_REASON." ∧
    strStartsWith "Image generation was stopped. Reason: UNKNOWN_REASON."
      "No image data was returned" = false :=
  ⟨rfl, by decide⟩

/-- C6 (amended): with no pre-generation block, the text-only path fails with
the no-image message when the response carries no generated-image entry, and
the reference-conditioned path fails with its no-image message when the first
candidate exists with an acceptable finish reason but carries no inline-image
part; a reference-path response with no candidate at all instead fails with
the generation-stopped message. -/
theorem c6_no_image (config : ImageGenerationConfig)
    (resp : GenerateImagesResponse)
    (respR : GenerateContentResponse) (cand : Candidate) (candRest : List Candidate)
    (respN : GenerateContentResponse)
    (hbT : optNonempty (resp.promptFeedback.bind PromptFeedback.blockReason) = none)
    (hgT : resp.generatedImages.bind List.head? = none)
    (hbR : optNonempty (respR.promptFeedback.bind PromptFeedback.blockReason) = none)
    (hgR : respR.candidates = some (cand :: candRest))
    (hfR : optNonempty cand.finishReason = none ∨ optNonempty cand.finishReason = some "STOP")
    (hpR : firstInlineData ((cand.content.bind Content.parts).getD []) = none)
    (hbN : optNonempty (respN.promptFeedback.bind PromptFeedback.blockReason) = none)
    (hgN : respN.candidates.bind List.head? = none) :
    generateTextToImage config (UpstreamOutcome.success resp) =
      Except.error "No image data was returned from the API. The prompt may be too complex or the model refused the request." ∧
    generateWithReferenceImage config (UpstreamOutcome.success respR) =
      Except.error "No image data was returned from the API. This can happen if the prompt is too complex or the model is unable to generate an image for your request." ∧
    generateWithReferenceImage config (UpstreamOutcome.success respN) =
      Except.error "Image generation was stopped. Reason: UNKNOWN_REASON." := by
  have hext : refExtract cand =
      Except.error "No image data was returned from the API. This can happen if the prompt is too complex or the model is unable to generate an image for your request." := by
    unfold refExtract
    cases hcp : cand.content.bind Content.parts with
    | none => rfl
    | some parts =>
      rw [hcp] at hpR
      simp only [Option.getD_some] at hpR
      simp [hpR]
  refine ⟨?_, ?_, ?_⟩
  · have hTry : generateTextToImageTry config resp =
        Except.error "No image data was returned from the API. The prompt may be too complex or the model refused the request." := by
      unfold generateTextToImageTry
      rw [hbT, hgT]
    show applyCatch preclassifiedText (generateTextToImageTry config resp) = _
    rw [hTry]
    simp [applyCatch, show preclassifiedText "No image data was returned from the API. The prompt may be too complex or the model refused the request." = true from by decide]
  · have hTry : generateWithReferenceImageTry config respR =
        Except.error "No image data was returned from the API. This can happen if the prompt is too complex or the model is unable to generate an image for your request." := by
      unfold generateWithReferenceImageTry
      rw [hbR, hgR]
      cases hfR with
      | inl hnone => simp [hnone, hext]
      | inr hstop => simp [hstop, hext]
    show applyCatch preclassifiedRef (generateWithReferenceImageTry config respR) = _
    rw [hTry]
    simp [applyCatch, show preclassifiedRef "No image data was returned from the API. This can happen if the prompt is too complex or the model is unable to generate an image for your request." = true from by decide]
  · have hTry : generateWithReferenceImageTry config respN =
        Except.error "Image generation was stopped. Reason: UNKNOWN_REASON." := by
      unfold generateWithReferenceImageTry
      rw [hbN, hgN]
    show applyCatch preclassifiedRef (generateWithReferenceImageTry config respN) = _
    rw [hTry]
    simp [applyCatch, show preclassifiedRef "Image generation was stopped. Reason: UNKNOWN_REASON." = true from by decide]

/-- Witness for C6 at concrete responses: no generated image (text path), a
normally finished candidate without an image part, and no candidate at all. -/
theorem c6_no_image_witness :
    generateTextToImage cfg0 (UpstreamOutcome.success respNoImages) =
      Except.error "No image data was returned from the API. The prompt may be too complex or the model refused the request." ∧
    generateWithReferenceImage cfg0 (UpstreamOutcome.success respRefNoPart) =
      Except.error "No image data was returned from the API. This can happen if the prompt is too complex or the model is unable to generate an image for your request." ∧
    generateWithReferenceImage cfg0 (UpstreamOutcome.success respNoCandidate) =
      Except.error "Image generation was stopped. Reason: UNKNOWN_REASON." :=
  c6_no_image cfg0 respNoImages respRefNoPart candStopNoPart [] respNoCandidate
    rfl rfl rfl rfl (Or.inr rfl) rfl rfl rfl
